import Mathlib

/-!
# CFGroundControl: frame builder, stream parser and UDP transport

A shallow embedding of `CF_gcs_mav_builder.c`, `CF_gcs_parser.c` and `CF_gcs_udp.c`.

Conventions of the embedding

* A byte is a `Nat`; a byte buffer is a `List Nat`; a pointer that may be `NULL` is an
  `Option`.
* `float` and `double` values are modelled by the rational number they denote: arithmetic on
  them is exact, rounding, NaN and the infinities are outside the model.
* The MAVLink codec (the `mavlink_*` functions, the `MAV*` constants and the decoded payload
  structs) is an external library whose headers are not part of the sources: it enters as a
  parameter of type `Codec σ`, with `σ` the type of the per-channel decode state.
* The operating system enters through explicit outcomes of the system calls a function makes,
  and through the set of descriptors that are open.
-/

namespace CFGroundControl

/-! ## The external codec -/

/-- Modelled from the spec: the frame object of the external codec (mavlink_message_t, declared
in the MAVLink headers, which are not among the sources): "one checksummed, length-delimited
unit of the wire protocol carrying a message kind and its payload", with the origin identity. -/
structure mavlink_message_t where
  msgid : Nat
  sysid : Nat
  compid : Nat
  payload : List Nat
deriving DecidableEq, Repr

/-- Modelled from the spec: the decoded heartbeat payload (mavlink_heartbeat_t of the codec):
mode bitmask, vehicle type, autopilot kind, custom mode and system status. -/
structure mavlink_heartbeat_t where
  custom_mode : Nat
  type : Nat
  autopilot : Nat
  base_mode : Nat
  system_status : Nat
deriving DecidableEq, Repr

/-- Modelled from the spec: the decoded attitude payload (mavlink_attitude_t of the codec):
roll, pitch and yaw in radians and the three angular rates. -/
structure mavlink_attitude_t where
  roll : ℚ
  pitch : ℚ
  yaw : ℚ
  rollspeed : ℚ
  pitchspeed : ℚ
  yawspeed : ℚ
deriving DecidableEq

/-- Modelled from the spec: the decoded status-text payload (mavlink_statustext_t of the
codec): severity and text. -/
structure mavlink_statustext_t where
  severity : Nat
  text : List Nat
deriving DecidableEq, Repr

/-- Modelled from the spec: the decoded global-position payload
(mavlink_global_position_int_t of the codec): latitude and longitude as 1e7-scaled signed
32-bit integers, altitude and relative altitude in millimetres. -/
structure mavlink_global_position_int_t where
  lat : Int
  lon : Int
  alt : Int
  relative_alt : Int
deriving DecidableEq, Repr

/-- Modelled from the spec: the decoded param-value payload (mavlink_param_value_t of the
codec): the 16-byte identifier, the value and its declared wire type. -/
structure mavlink_param_value_t where
  param_value : ℚ
  param_id : List Nat
  param_type : Nat
deriving DecidableEq

/-- Modelled from the spec: the external protocol codec, "assumed correct and given". Its
constants, its pack functions (pure, per section 4.1 of the spec), its serialiser, its per-byte
frame decoder over a decode state `σ` and its payload decoders are the fields; the argument
lists follow the calls made in the sources (the output parameter `&msg` is the result). The
eleven trailing auxiliary arguments of the manual-control pack are one list. -/
structure Codec (σ : Type) where
  MAVLINK_MAX_PACKET_LEN : Nat
  MAVLINK_MSG_ID_HEARTBEAT : Nat
  MAVLINK_MSG_ID_ATTITUDE : Nat
  MAVLINK_MSG_ID_STATUSTEXT : Nat
  MAVLINK_MSG_ID_GLOBAL_POSITION_INT : Nat
  MAVLINK_MSG_ID_PARAM_VALUE : Nat
  MAV_TYPE_GCS : Nat
  MAV_AUTOPILOT_INVALID : Nat
  MAV_MODE_FLAG_CUSTOM_MODE_ENABLED : Nat
  MAV_MODE_FLAG_SAFETY_ARMED : Nat
  MAV_STATE_ACTIVE : Nat
  MAV_CMD_COMPONENT_ARM_DISARM : Nat
  MAV_CMD_PREFLIGHT_CALIBRATION : Nat
  MAV_CMD_NAV_TAKEOFF : Nat
  MAV_PARAM_TYPE_REAL32 : Nat
  mavlink_msg_heartbeat_pack : Nat → Nat → Nat → Nat → Nat → Nat → Nat → mavlink_message_t
  mavlink_msg_command_long_pack :
    Nat → Nat → Nat → Nat → Nat → Nat → ℚ → ℚ → ℚ → ℚ → ℚ → ℚ → ℚ → mavlink_message_t
  mavlink_msg_manual_control_pack :
    Nat → Nat → Nat → Int → Int → Int → Int → List Int → mavlink_message_t
  mavlink_msg_param_request_list_pack : Nat → Nat → Nat → Nat → mavlink_message_t
  mavlink_msg_param_set_pack : Nat → Nat → Nat → Nat → List Nat → ℚ → Nat → mavlink_message_t
  mavlink_msg_to_send_buffer : mavlink_message_t → List Nat
  mavlink_parse_char : σ → Nat → σ × Option mavlink_message_t
  mavlink_msg_heartbeat_decode : mavlink_message_t → mavlink_heartbeat_t
  mavlink_msg_attitude_decode : mavlink_message_t → mavlink_attitude_t
  mavlink_msg_statustext_decode : mavlink_message_t → mavlink_statustext_t
  mavlink_msg_global_position_int_decode : mavlink_message_t → mavlink_global_position_int_t
  mavlink_msg_param_value_decode : mavlink_message_t → mavlink_param_value_t

variable {σ : Type}

/-! ## CF_gcs_mav_builder -/

/-- Origin system identifier (CF_gcs_mav_builder.h). -/
def GCS_SYSTEM_ID : Nat := 255

/-- Origin component identifier (CF_gcs_mav_builder.h). -/
def GCS_COMP_ID : Nat := 25

/-- Target system identifier (CF_gcs_mav_builder.h). -/
def TARGET_SYSTEM_ID : Nat := 1

/-- Target component identifier (CF_gcs_mav_builder.h). -/
def TARGET_COMP_ID : Nat := 1

/-- Memory after writing `bytes` at the start of the region `mem`: the bytes written, then
what the region held beyond them. -/
def write_bytes (mem bytes : List Nat) : List Nat :=
  bytes ++ mem.drop bytes.length

/-- The common tail of every builder: `length = mavlink_msg_to_send_buffer(buffer, &msg);
return length;`. The result is the buffer after the call and the value returned. -/
def send_to_buffer (c : Codec σ) (mem : List Nat) (msg : mavlink_message_t) :
    Option (List Nat) × Nat :=
  let bytes := c.mavlink_msg_to_send_buffer msg
  (some (write_bytes mem bytes), bytes.length)

/-- The heartbeat builder. `buffer` is `none` for a null pointer; the result is the buffer
after the call and the value returned. -/
def CF_gcs_build_heartbeat (c : Codec σ) (buffer : Option (List Nat)) (buffer_size : Nat) :
    Option (List Nat) × Nat :=
  match buffer with
  | none => (none, 0)
  | some mem =>
    if buffer_size < c.MAVLINK_MAX_PACKET_LEN then (some mem, 0)
    else
      send_to_buffer c mem
        (c.mavlink_msg_heartbeat_pack GCS_SYSTEM_ID GCS_COMP_ID c.MAV_TYPE_GCS
          c.MAV_AUTOPILOT_INVALID c.MAV_MODE_FLAG_CUSTOM_MODE_ENABLED 0 c.MAV_STATE_ACTIVE)

/-- The arm/disarm builder. -/
def CF_gcs_build_arm_disarm (c : Codec σ) (buffer : Option (List Nat)) (buffer_size : Nat)
    (is_armed : Bool) : Option (List Nat) × Nat :=
  match buffer with
  | none => (none, 0)
  | some mem =>
    if buffer_size < c.MAVLINK_MAX_PACKET_LEN then (some mem, 0)
    else
      send_to_buffer c mem
        (c.mavlink_msg_command_long_pack GCS_SYSTEM_ID GCS_COMP_ID TARGET_SYSTEM_ID
          TARGET_COMP_ID c.MAV_CMD_COMPONENT_ARM_DISARM 0
          (if is_armed then 1 else 0) 0 0 0 0 0 0)

/-- The IMU calibration builder. -/
def CF_gcs_build_calibrate_imu (c : Codec σ) (buffer : Option (List Nat)) (buffer_size : Nat) :
    Option (List Nat) × Nat :=
  match buffer with
  | none => (none, 0)
  | some mem =>
    if buffer_size < c.MAVLINK_MAX_PACKET_LEN then (some mem, 0)
    else
      send_to_buffer c mem
        (c.mavlink_msg_command_long_pack GCS_SYSTEM_ID GCS_COMP_ID TARGET_SYSTEM_ID
          TARGET_COMP_ID c.MAV_CMD_PREFLIGHT_CALIBRATION 0 1 0 0 0 0 0 0)

/-- The barometer calibration builder. -/
def CF_gcs_build_calibrate_baro (c : Codec σ) (buffer : Option (List Nat)) (buffer_size : Nat) :
    Option (List Nat) × Nat :=
  match buffer with
  | none => (none, 0)
  | some mem =>
    if buffer_size < c.MAVLINK_MAX_PACKET_LEN then (some mem, 0)
    else
      send_to_buffer c mem
        (c.mavlink_msg_command_long_pack GCS_SYSTEM_ID GCS_COMP_ID TARGET_SYSTEM_ID
          TARGET_COMP_ID c.MAV_CMD_PREFLIGHT_CALIBRATION 0 0 0 0 0 1 0 0)

/-- The manual-control builder; the four axis values are `int16_t`. -/
def CF_gcs_build_manual_control (c : Codec σ) (buffer : Option (List Nat)) (buffer_size : Nat)
    (roll pitch yaw throttle : Int) : Option (List Nat) × Nat :=
  match buffer with
  | none => (none, 0)
  | some mem =>
    if buffer_size < c.MAVLINK_MAX_PACKET_LEN then (some mem, 0)
    else
      send_to_buffer c mem
        (c.mavlink_msg_manual_control_pack GCS_SYSTEM_ID GCS_COMP_ID TARGET_SYSTEM_ID
          roll pitch yaw throttle [0, 0, 0, 0, 0, 0, 0, 0, 0, 0, 0])

/-- The take-off builder. -/
def CF_gcs_build_takeoff (c : Codec σ) (buffer : Option (List Nat)) (buffer_size : Nat) :
    Option (List Nat) × Nat :=
  match buffer with
  | none => (none, 0)
  | some mem =>
    if buffer_size < c.MAVLINK_MAX_PACKET_LEN then (some mem, 0)
    else
      send_to_buffer c mem
        (c.mavlink_msg_command_long_pack GCS_SYSTEM_ID GCS_COMP_ID TARGET_SYSTEM_ID
          TARGET_COMP_ID c.MAV_CMD_NAV_TAKEOFF 0 0 0 0 0 0 0 0)

/-- The parameter-list request builder. -/
def CF_gcs_build_param_list (c : Codec σ) (buffer : Option (List Nat)) (buffer_size : Nat) :
    Option (List Nat) × Nat :=
  match buffer with
  | none => (none, 0)
  | some mem =>
    if buffer_size < c.MAVLINK_MAX_PACKET_LEN then (some mem, 0)
    else
      send_to_buffer c mem
        (c.mavlink_msg_param_request_list_pack GCS_SYSTEM_ID GCS_COMP_ID TARGET_SYSTEM_ID
          TARGET_COMP_ID)

/-- The C library `strlen` on the memory found at a `char` pointer: the number of bytes before
the first zero byte. -/
def strlen (s : List Nat) : Nat :=
  (s.takeWhile (fun b => b != 0)).length

/-- The C library `memcpy(dst, src, n)`: the destination after the copy. -/
def memcpy (dst src : List Nat) (n : Nat) : List Nat :=
  src.take n ++ dst.drop n

/-- The C library `strcpy(dst, src)`: the bytes before the first zero byte of the source and
the terminating zero byte are written over the start of the destination. -/
def strcpy (dst src : List Nat) : List Nat :=
  write_bytes dst (src.takeWhile (fun b => b != 0) ++ [0])

/-- The parameter-set builder. `param_id` is the memory found at the `const char *` argument;
`param_id_16` starts as sixteen zero bytes (`char param_id_16[16] = {0}`). -/
def CF_gcs_build_set_param (c : Codec σ) (buffer : Option (List Nat)) (buffer_size : Nat)
    (param_id : List Nat) (param_value : ℚ) : Option (List Nat) × Nat :=
  match buffer with
  | none => (none, 0)
  | some mem =>
    if buffer_size < c.MAVLINK_MAX_PACKET_LEN then (some mem, 0)
    else
      let param_id_16 : List Nat := List.replicate 16 0
      let len := strlen param_id
      let param_id_16 :=
        if len ≥ 16 then memcpy param_id_16 param_id 16 else strcpy param_id_16 param_id
      send_to_buffer c mem
        (c.mavlink_msg_param_set_pack GCS_SYSTEM_ID GCS_COMP_ID TARGET_SYSTEM_ID
          TARGET_COMP_ID param_id_16 param_value c.MAV_PARAM_TYPE_REAL32)

/-- A call of one of the eight builders, with the arguments that follow the buffer and its
size. -/
inductive BuilderCall where
  | heartbeat
  | arm_disarm (is_armed : Bool)
  | calibrate_imu
  | calibrate_baro
  | manual_control (roll pitch yaw throttle : Int)
  | takeoff
  | param_list
  | set_param (param_id : List Nat) (param_value : ℚ)

/-- Runs the builder a `BuilderCall` names. -/
def BuilderCall.run (c : Codec σ) (buffer : Option (List Nat)) (buffer_size : Nat) :
    BuilderCall → Option (List Nat) × Nat
  | .heartbeat => CF_gcs_build_heartbeat c buffer buffer_size
  | .arm_disarm is_armed => CF_gcs_build_arm_disarm c buffer buffer_size is_armed
  | .calibrate_imu => CF_gcs_build_calibrate_imu c buffer buffer_size
  | .calibrate_baro => CF_gcs_build_calibrate_baro c buffer buffer_size
  | .manual_control roll pitch yaw throttle =>
    CF_gcs_build_manual_control c buffer buffer_size roll pitch yaw throttle
  | .takeoff => CF_gcs_build_takeoff c buffer buffer_size
  | .param_list => CF_gcs_build_param_list c buffer buffer_size
  | .set_param param_id param_value =>
    CF_gcs_build_set_param c buffer buffer_size param_id param_value

/-! ## CF_gcs_parser -/

/-- The callback registry: a slot holds the function pointer registered, `none` for `NULL`. A
function pointer is identified by a number. -/
structure CF_GCSCallback_t where
  on_heartbeat : Option Nat
  on_attitude : Option Nat
  on_position : Option Nat
  on_status_text : Option Nat
  on_param_value : Option Nat
deriving DecidableEq, Repr

/-- One invocation of a registered callback: the slot it was taken from, the function pointer
called and the arguments passed, in the order of the callback typedefs of CF_gcs_parser.h. -/
inductive CallbackCall where
  | on_heartbeat (fn : Nat) (is_armed : Bool)
      (vehicle_type autopilot custom_mode system_status : Nat)
  | on_attitude (fn : Nat) (roll_deg pitch_deg yaw_deg roll_rate pitch_rate yaw_rate : ℚ)
  | on_position (fn : Nat) (lat lon alt_m relative_alt_m : ℚ)
  | on_status_text (fn : Nat) (text : List Nat) (severity : Nat)
  | on_param_value (fn : Nat) (param_id : List Nat) (param_value : ℚ)
deriving DecidableEq

/-- The state the parser module keeps between calls: its static `g_callbacks`, and the decode
state of channel `MAVLINK_COMM_0`, which the codec keeps. -/
structure ParserState (σ : Type) where
  g_callbacks : CF_GCSCallback_t
  channel : σ

/-- The registration call: `g_callbacks = *callbacks`. -/
def CF_gcs_parser_init (st : ParserState σ) (callbacks : CF_GCSCallback_t) : ParserState σ :=
  { st with g_callbacks := callbacks }

/-- The `double` that the `M_PI` literal of `<math.h>` denotes, 0x400921FB54442D18. -/
def M_PI : ℚ := 884279719003555 / 281474976710656

/-- The dispatcher. The `switch` on `msg->msgid` is the chain of comparisons with the case
labels in source order. The result is `g_callbacks` after the call and the callbacks invoked,
in order. -/
def handle_message (c : Codec σ) (g_callbacks : CF_GCSCallback_t) (msg : mavlink_message_t) :
    CF_GCSCallback_t × List CallbackCall :=
  if msg.msgid = c.MAVLINK_MSG_ID_HEARTBEAT then
    let heartbeat := c.mavlink_msg_heartbeat_decode msg
    let is_armed : Bool := (heartbeat.base_mode &&& c.MAV_MODE_FLAG_SAFETY_ARMED) != 0
    match g_callbacks.on_heartbeat with
    | some fn =>
      (g_callbacks, [CallbackCall.on_heartbeat fn is_armed heartbeat.type heartbeat.autopilot
        heartbeat.custom_mode heartbeat.system_status])
    | none => (g_callbacks, [])
  else if msg.msgid = c.MAVLINK_MSG_ID_ATTITUDE then
    let attitude := c.mavlink_msg_attitude_decode msg
    let roll_deg := attitude.roll * 180 / M_PI
    let pitch_deg := attitude.pitch * 180 / M_PI
    let yaw_deg := attitude.yaw * 180 / M_PI
    match g_callbacks.on_attitude with
    | some fn =>
      (g_callbacks, [CallbackCall.on_attitude fn roll_deg pitch_deg yaw_deg
        attitude.rollspeed attitude.pitchspeed attitude.yawspeed])
    | none => (g_callbacks, [])
  else if msg.msgid = c.MAVLINK_MSG_ID_STATUSTEXT then
    let status_text := c.mavlink_msg_statustext_decode msg
    match g_callbacks.on_status_text with
    | some fn =>
      (g_callbacks, [CallbackCall.on_status_text fn status_text.text status_text.severity])
    | none => (g_callbacks, [])
  else if msg.msgid = c.MAVLINK_MSG_ID_GLOBAL_POSITION_INT then
    let position := c.mavlink_msg_global_position_int_decode msg
    let lat : ℚ := (position.lat : ℚ) / 10000000
    let lon : ℚ := (position.lon : ℚ) / 10000000
    let alt_m : ℚ := (position.alt : ℚ) / 1000
    let rel_alt_m : ℚ := (position.relative_alt : ℚ) / 1000
    match g_callbacks.on_position with
    | some fn => (g_callbacks, [CallbackCall.on_position fn lat lon alt_m rel_alt_m])
    | none => (g_callbacks, [])
  else if msg.msgid = c.MAVLINK_MSG_ID_PARAM_VALUE then
    let param := c.mavlink_msg_param_value_decode msg
    if param.param_type ≠ c.MAV_PARAM_TYPE_REAL32 then (g_callbacks, [])
    else
      match g_callbacks.on_param_value with
      | some fn =>
        (g_callbacks, [CallbackCall.on_param_value fn param.param_id param.param_value])
      | none => (g_callbacks, [])
  else (g_callbacks, [])

/-- The stream entry point. The list is the `length` bytes found at `buffer`; the recursion is
the `for` loop. The result is the parser state after the call and the callbacks invoked, in
order. -/
def CF_gcs_parser_process (c : Codec σ) (st : ParserState σ) :
    List Nat → ParserState σ × List CallbackCall
  | [] => (st, [])
  | b :: rest =>
    let parsed := c.mavlink_parse_char st.channel b
    let handled :=
      match parsed.2 with
      | some msg => handle_message c st.g_callbacks msg
      | none => (st.g_callbacks, [])
    let later :=
      CF_gcs_parser_process c { g_callbacks := handled.1, channel := parsed.1 } rest
    (later.1, handled.2 ++ later.2)

/-- One call of `CF_gcs_parser_process` per byte; the callbacks invoked by the successive
calls, in order. -/
def process_bytewise (c : Codec σ) (st : ParserState σ) :
    List Nat → ParserState σ × List CallbackCall
  | [] => (st, [])
  | b :: rest =>
    let first := CF_gcs_parser_process c st [b]
    let later := process_bytewise c first.1 rest
    (later.1, first.2 ++ later.2)

/-- The frames the codec's per-byte decoder reconstructs from a byte stream, in order, and the
decode state it ends in. -/
def mavlink_parse_stream (c : Codec σ) (s : σ) : List Nat → σ × List mavlink_message_t
  | [] => (s, [])
  | b :: rest =>
    let parsed := c.mavlink_parse_char s b
    let later := mavlink_parse_stream c parsed.1 rest
    (later.1, parsed.2.toList ++ later.2)

/-! ## CF_gcs_udp -/

/-- The platform the transport is compiled for: the constants and the pure library functions
of the system headers that CF_gcs_udp.c uses. `inet_pton` gives the address for a text that
parses (return value 1) and `none` otherwise (return value 0 or -1); `inet_ntop` gives the
text of an address, terminator included (whether a call stores it depends on the size passed,
see `inet_ntop_call`). -/
structure Posix where
  AF_INET : Nat
  INET_ADDRSTRLEN : Nat
  EAGAIN : Int
  EWOULDBLOCK : Int
  htons : Int → Nat
  inet_pton : List Nat → Option Nat
  inet_ntop : Nat → List Nat

/-- The IPv4 socket address `struct sockaddr_in`; `sin_addr` is `sin_addr.s_addr`. -/
structure sockaddr_in where
  sin_family : Nat
  sin_port : Nat
  sin_addr : Nat
deriving DecidableEq, Repr

/-- The session object of CF_gcs_udp.h. -/
structure CF_GCSUDP_t where
  socket_fd : Int
  server_addr : sockaddr_in
  is_connected : Bool
deriving DecidableEq, Repr

/-- The descriptors that are open. -/
structure Kernel where
  open_fds : List Int
deriving DecidableEq, Repr

/-- The effect of a `socket` call that returned `ret`: a non-negative result is a descriptor
that is open from now on. -/
def sys_socket (k : Kernel) (ret : Int) : Kernel :=
  if 0 ≤ ret then { open_fds := ret :: k.open_fds } else k

/-- The effect of `close(fd)`: the descriptor is open no more. -/
def sys_close (k : Kernel) (fd : Int) : Kernel :=
  { open_fds := k.open_fds.filter (fun d => d != fd) }

/-- What one `recvfrom` call meets: a pending datagram with its sender, or an error with the
`errno` it sets (a would-block condition and an expired receive timeout among them). -/
inductive RecvOutcome where
  | datagram (data : List Nat) (sender : sockaddr_in)
  | error (errno : Int)
deriving DecidableEq, Repr

/-- What one `recvfrom` call leaves behind: its return value, the bytes it stored at the start
of the buffer, the sender address it filled in, and `errno`. -/
structure RecvResult where
  bytes : Int
  data : List Nat
  sender : sockaddr_in
  errno : Int
deriving DecidableEq, Repr

/-- The system call `recvfrom` on a buffer of `capacity` bytes: a datagram is cut to the
capacity and its stored length returned; an error returns -1 and stores nothing. -/
def recvfrom (capacity : Nat) : RecvOutcome → RecvResult
  | .datagram data sender =>
    { bytes := ((data.take capacity).length : Int), data := data.take capacity,
      sender := sender, errno := 0 }
  | .error errno =>
    { bytes := -1, data := [], sender := { sin_family := 0, sin_port := 0, sin_addr := 0 },
      errno := errno }

/-- The conversion `(int)bytes` of an `ssize_t` to a 32-bit `int`. -/
def int_of_ssize (x : Int) : Int :=
  (x + 2147483648) % 4294967296 - 2147483648

/-- The conversion `(ssize_t)length` of a `size_t` to a 64-bit `ssize_t`. -/
def ssize_of_size (n : Nat) : Int :=
  ((n : Int) + 9223372036854775808) % 18446744073709551616 - 9223372036854775808

/-- The session initialiser: the session after the call and the value returned. -/
def CF_gcs_udp_init (client : Option CF_GCSUDP_t) : Option CF_GCSUDP_t × Bool :=
  match client with
  | none => (none, false)
  | some _ =>
    (some { socket_fd := -1,
            server_addr := { sin_family := 0, sin_port := 0, sin_addr := 0 },
            is_connected := false }, true)

/-- The conversion `(socklen_t)ip_size` of a `size_t` to the unsigned 32-bit `socklen_t`. -/
def socklen_of_size (n : Nat) : Nat :=
  n % 4294967296

/-- The library call `inet_ntop(AF_INET, &addr, dst, size)`: the text of the address, with its
terminator, is stored at the start of `dst` when it fits in `size` bytes; otherwise the call
fails (`ENOSPC`) and stores nothing. The result is `dst` after the call and whether the call
succeeded. -/
def inet_ntop_call (px : Posix) (addr : Nat) (dst : List Nat) (size : Nat) : List Nat × Bool :=
  if (px.inet_ntop addr).length ≤ size then (write_bytes dst (px.inet_ntop addr), true)
  else (dst, false)

/-- The outcomes of the system calls one discovery call makes: `socket`, `bind`, `recvfrom`
(the results of the two `setsockopt` calls are not looked at). -/
structure DiscoverEnv where
  socket_ret : Int
  bind_ret : Int
  recv : RecvOutcome

/-- The discovery call. The result is the open descriptors after the call, `ip_out` after the
call and the value returned; what `inet_ntop` returns is not looked at. -/
def CF_gcs_udp_discover_drone (px : Posix) (k : Kernel) (env : DiscoverEnv)
    (_port _timeout_ms : Int) (ip_out : Option (List Nat)) (ip_size : Nat) :
    Kernel × Option (List Nat) × Bool :=
  match ip_out with
  | none => (k, none, false)
  | some out =>
    if ip_size < px.INET_ADDRSTRLEN then (k, some out, false)
    else
      let discovery_sock := env.socket_ret
      let k1 := sys_socket k discovery_sock
      if discovery_sock < 0 then (k1, some out, false)
      else if env.bind_ret < 0 then (sys_close k1 discovery_sock, some out, false)
      else
        let r := recvfrom 1024 env.recv
        let k2 := sys_close k1 discovery_sock
        if r.bytes > 0 ∧ (r.data.getD 0 0 = 0xFE ∨ r.data.getD 0 0 = 0xFD) then
          let written := inet_ntop_call px r.sender.sin_addr out (socklen_of_size ip_size)
          (k2, some written.1, true)
        else (k2, some out, false)

/-- The outcomes of the system calls one connect call looks at: `socket`, `fcntl(F_SETFL)` and
`bind` (the results of the `setsockopt` calls are not looked at). -/
structure ConnectEnv where
  socket_ret : Int
  fcntl_ret : Int
  bind_ret : Int
deriving DecidableEq, Repr

/-- The connect call. The result is the open descriptors after the call, the session after the
call and the value returned. -/
def CF_gcs_udp_connect (px : Posix) (k : Kernel) (env : ConnectEnv)
    (client : Option CF_GCSUDP_t) (drone_ip : Option (List Nat)) (port : Int) :
    Kernel × Option CF_GCSUDP_t × Bool :=
  match client, drone_ip with
  | some cl, some ip =>
    let cl1 : CF_GCSUDP_t := { cl with socket_fd := env.socket_ret }
    let k1 := sys_socket k env.socket_ret
    if cl1.socket_fd < 0 then (k1, some cl1, false)
    else if env.fcntl_ret < 0 then (sys_close k1 cl1.socket_fd, some cl1, false)
    else if env.bind_ret < 0 then (sys_close k1 cl1.socket_fd, some cl1, false)
    else
      let cl2 : CF_GCSUDP_t :=
        { cl1 with server_addr :=
            { sin_family := px.AF_INET, sin_port := px.htons port, sin_addr := 0 } }
      match px.inet_pton ip with
      | none => (sys_close k1 cl2.socket_fd, some cl2, false)
      | some addr =>
        (k1, some { cl2 with server_addr := { cl2.server_addr with sin_addr := addr },
                             is_connected := true }, true)
  | _, _ => (k, client, false)

/-- The send call; `sendto_ret` is what the one `sendto` call returns when it is made. -/
def CF_gcs_udp_send (client : Option CF_GCSUDP_t) (data : Option (List Nat)) (length : Nat)
    (sendto_ret : Int) : Bool :=
  match client, data with
  | some cl, some _ =>
    if !cl.is_connected || length == 0 then false
    else sendto_ret == ssize_of_size length
  | _, _ => false

/-- The receive call; `r` is what the one `recvfrom` call meets when it is made. The result is
the session after the call, the buffer after the call and the value returned. -/
def CF_gcs_udp_receive (px : Posix) (client : Option CF_GCSUDP_t)
    (buffer : Option (List Nat)) (buffer_size : Nat) (r : RecvOutcome) :
    Option CF_GCSUDP_t × Option (List Nat) × Int :=
  match client, buffer with
  | some cl, some mem =>
    if !cl.is_connected || buffer_size == 0 then (some cl, some mem, -1)
    else
      let res := recvfrom buffer_size r
      let mem1 := write_bytes mem res.data
      if res.bytes > 0 then
        (some cl, some mem1,
          if res.sender.sin_addr ≠ cl.server_addr.sin_addr then 0 else int_of_ssize res.bytes)
      else if res.bytes = 0 then (some cl, some mem1, 0)
      else if res.errno = px.EAGAIN ∨ res.errno = px.EWOULDBLOCK then (some cl, some mem1, 0)
      else (some cl, some mem1, -1)
  | _, _ => (client, buffer, -1)

/-- The disconnect call: the open descriptors and the session after the call. -/
def CF_gcs_udp_disconnect (k : Kernel) (client : Option CF_GCSUDP_t) :
    Kernel × Option CF_GCSUDP_t :=
  match client with
  | none => (k, none)
  | some cl =>
    if 0 ≤ cl.socket_fd then
      (sys_close k cl.socket_fd, some { cl with socket_fd := -1, is_connected := false })
    else (k, some { cl with is_connected := false })

/-- A session together with the descriptors that are open. -/
structure World where
  kernel : Kernel
  client : CF_GCSUDP_t
deriving DecidableEq, Repr

/-- One call made on the session after `CF_gcs_udp_init`, with its arguments and the outcomes
of the system calls it makes. -/
inductive UdpCall where
  | connect (drone_ip : List Nat) (port : Int) (env : ConnectEnv)
  | send (data : List Nat) (length : Nat) (sendto_ret : Int)
  | receive (buffer : List Nat) (buffer_size : Nat) (r : RecvOutcome)
  | disconnect

/-- The world after one call on the session. `CF_gcs_udp_send` returns a `bool` and writes
neither to the session nor to the descriptor table, so a send leaves the world as it is. -/
def World.step (px : Posix) (w : World) : UdpCall → World
  | .connect drone_ip port env =>
    let r := CF_gcs_udp_connect px w.kernel env (some w.client) (some drone_ip) port
    { kernel := r.1, client := r.2.1.getD w.client }
  | .send _ _ _ => w
  | .receive buffer buffer_size r =>
    let res := CF_gcs_udp_receive px (some w.client) (some buffer) buffer_size r
    { kernel := w.kernel, client := res.1.getD w.client }
  | .disconnect =>
    let r := CF_gcs_udp_disconnect w.kernel (some w.client)
    { kernel := r.1, client := r.2.getD w.client }

/-- The world after `CF_gcs_udp_init` on a session, no descriptor being open yet. -/
def World.init (client : CF_GCSUDP_t) : World :=
  { kernel := { open_fds := [] }, client := (CF_gcs_udp_init (some client)).1.getD client }

/-- The world after a sequence of calls. -/
def World.run (px : Posix) (w : World) (calls : List UdpCall) : World :=
  calls.foldl (World.step px) w

/-! ## Vocabulary of the round trip -/

/-- The parse of the codec inverts its pack on the heartbeat that `CF_gcs_build_heartbeat`
packs: from the decode state `s0`, the bytes the serialiser gives for that message are
reconstructed into exactly one frame, which carries the heartbeat message number and decodes to
the fields that were packed. -/
def ParseInvertsHeartbeatPack (c : Codec σ) (s0 : σ) : Prop :=
  (mavlink_parse_stream c s0
      (c.mavlink_msg_to_send_buffer
        (c.mavlink_msg_heartbeat_pack GCS_SYSTEM_ID GCS_COMP_ID c.MAV_TYPE_GCS
          c.MAV_AUTOPILOT_INVALID c.MAV_MODE_FLAG_CUSTOM_MODE_ENABLED 0
          c.MAV_STATE_ACTIVE))).2.map
    (fun m => (m.msgid, c.mavlink_msg_heartbeat_decode m)) =
  [(c.MAVLINK_MSG_ID_HEARTBEAT,
    { custom_mode := 0, type := c.MAV_TYPE_GCS, autopilot := c.MAV_AUTOPILOT_INVALID,
      base_mode := c.MAV_MODE_FLAG_CUSTOM_MODE_ENABLED, system_status := c.MAV_STATE_ACTIVE })]

/-! ## Vocabulary of the dispatch contract -/

/-- The five message kinds of the decode side. -/
inductive MsgKind where
  | Heartbeat
  | Attitude
  | StatusText
  | GlobalPosition
  | ParamValue
deriving DecidableEq, Repr

/-- The message number of a kind: the case label of its branch in `handle_message`. -/
def MsgKind.id (c : Codec σ) : MsgKind → Nat
  | .Heartbeat => c.MAVLINK_MSG_ID_HEARTBEAT
  | .Attitude => c.MAVLINK_MSG_ID_ATTITUDE
  | .StatusText => c.MAVLINK_MSG_ID_STATUSTEXT
  | .GlobalPosition => c.MAVLINK_MSG_ID_GLOBAL_POSITION_INT
  | .ParamValue => c.MAVLINK_MSG_ID_PARAM_VALUE

/-- The case labels of the `switch` are pairwise different, as the C language requires. -/
def CaseLabelsDistinct (c : Codec σ) : Prop :=
  ∀ j k : MsgKind, MsgKind.id c j = MsgKind.id c k → j = k

/-- The registry slot of a kind. -/
def CF_GCSCallback_t.slot (g : CF_GCSCallback_t) : MsgKind → Option Nat
  | .Heartbeat => g.on_heartbeat
  | .Attitude => g.on_attitude
  | .StatusText => g.on_status_text
  | .GlobalPosition => g.on_position
  | .ParamValue => g.on_param_value

/-- The kind of the slot an invocation was taken from. -/
def CallbackCall.kind : CallbackCall → MsgKind
  | .on_heartbeat .. => .Heartbeat
  | .on_attitude .. => .Attitude
  | .on_status_text .. => .StatusText
  | .on_position .. => .GlobalPosition
  | .on_param_value .. => .ParamValue

/-- The function pointer an invocation called. -/
def CallbackCall.fn : CallbackCall → Nat
  | .on_heartbeat fn .. => fn
  | .on_attitude fn .. => fn
  | .on_status_text fn .. => fn
  | .on_position fn .. => fn
  | .on_param_value fn .. => fn

/-- The dispatch contract in its unconditional form, for one frame and one registry: a frame of
one of the five kinds invokes the registered callback of its kind exactly once and nothing
else, and nothing at all (leaving the registry as it was) when that slot is empty; a frame of
no such kind invokes nothing. -/
def DispatchesEveryKind (c : Codec σ) (g : CF_GCSCallback_t) (msg : mavlink_message_t) : Prop :=
  (∀ k : MsgKind, msg.msgid = MsgKind.id c k →
    (∀ fn, g.slot k = some fn →
      ∃ call, (handle_message c g msg).2 = [call] ∧ call.kind = k ∧ call.fn = fn) ∧
    (g.slot k = none → (handle_message c g msg).2 = [] ∧ (handle_message c g msg).1 = g)) ∧
  ((∀ k : MsgKind, msg.msgid ≠ MsgKind.id c k) → (handle_message c g msg).2 = [])

/-! ## Vocabulary of the descriptor invariant -/

/-- The session owns exactly one socket descriptor at a time: at most one descriptor is open,
and an open descriptor is the one stored in `socket_fd`. -/
def World.OneSocket (w : World) : Prop :=
  w.kernel.open_fds.length ≤ 1 ∧ ∀ fd ∈ w.kernel.open_fds, fd = w.client.socket_fd

/-! ## A small codec and platform

A codec with a simplified wire format, and a little-endian POSIX platform, on which the
development is instantiated. A frame is the marker byte 0xFD, the payload length, the origin
system and component, the message number and at most 255 payload bytes; integers travel
little-endian in two's complement and a `float` travels as a 32-bit count of thousandths. -/

namespace Demo

/-- The `width` little-endian bytes of a number. -/
def le_bytes (width v : Nat) : List Nat :=
  (List.range width).map (fun i => v / 256 ^ i % 256)

/-- The number little-endian bytes stand for. -/
def le_value (bs : List Nat) : Nat :=
  bs.foldr (fun b acc => b + 256 * acc) 0

/-- The two's complement code of an integer on `width` bytes. -/
def twos (width : Nat) (x : Int) : Nat :=
  (x % 2 ^ (8 * width)).toNat

/-- The signed integer that `width` little-endian bytes stand for in two's complement. -/
def le_signed (width : Nat) (bs : List Nat) : Int :=
  if le_value bs < 2 ^ (8 * width - 1) then (le_value bs : Int)
  else (le_value bs : Int) - 2 ^ (8 * width)

/-- The `len` payload bytes at offset `off`. -/
def field (payload : List Nat) (off len : Nat) : List Nat :=
  (payload.drop off).take len

/-- The four bytes of a `float`: its thousandths, rounded down, as a signed 32-bit integer. -/
def fx_bytes (q : ℚ) : List Nat :=
  le_bytes 4 (twos 4 (q.num * 1000 / (q.den : Int)))

/-- The `float` four bytes stand for. -/
def fx_value (bs : List Nat) : ℚ :=
  (le_signed 4 bs : ℚ) / 1000

/-- The frame decoder: the state is the bytes of the frame under way. Bytes before a marker
are skipped; a frame is complete when as many payload bytes as announced have come. -/
def parse_char (s : List Nat) (b : Nat) : List Nat × Option mavlink_message_t :=
  match s ++ [b] with
  | magic :: len :: sysid :: compid :: msgid :: payload =>
    if payload.length = len then
      ([], some { msgid := msgid, sysid := sysid, compid := compid, payload := payload })
    else (magic :: len :: sysid :: compid :: msgid :: payload, none)
  | [magic] => if magic = 0xFD then ([magic], none) else ([], none)
  | header => (header, none)

/-- The codec. -/
def codec : Codec (List Nat) where
  MAVLINK_MAX_PACKET_LEN := 280
  MAVLINK_MSG_ID_HEARTBEAT := 0
  MAVLINK_MSG_ID_ATTITUDE := 30
  MAVLINK_MSG_ID_STATUSTEXT := 253
  MAVLINK_MSG_ID_GLOBAL_POSITION_INT := 33
  MAVLINK_MSG_ID_PARAM_VALUE := 22
  MAV_TYPE_GCS := 6
  MAV_AUTOPILOT_INVALID := 8
  MAV_MODE_FLAG_CUSTOM_MODE_ENABLED := 1
  MAV_MODE_FLAG_SAFETY_ARMED := 128
  MAV_STATE_ACTIVE := 4
  MAV_CMD_COMPONENT_ARM_DISARM := 400
  MAV_CMD_PREFLIGHT_CALIBRATION := 241
  MAV_CMD_NAV_TAKEOFF := 22
  MAV_PARAM_TYPE_REAL32 := 9
  mavlink_msg_heartbeat_pack := fun sysid compid type autopilot base_mode custom_mode
      system_status =>
    { msgid := 0, sysid := sysid, compid := compid,
      payload := le_bytes 4 custom_mode ++
        [type % 256, autopilot % 256, base_mode % 256, system_status % 256, 3] }
  mavlink_msg_command_long_pack := fun sysid compid target_system target_component command
      confirmation p1 p2 p3 p4 p5 p6 p7 =>
    { msgid := 76, sysid := sysid, compid := compid,
      payload := fx_bytes p1 ++ fx_bytes p2 ++ fx_bytes p3 ++ fx_bytes p4 ++ fx_bytes p5 ++
        fx_bytes p6 ++ fx_bytes p7 ++ le_bytes 2 command ++
        [target_system % 256, target_component % 256, confirmation % 256] }
  mavlink_msg_manual_control_pack := fun sysid compid target x y z r aux =>
    { msgid := 69, sysid := sysid, compid := compid,
      payload := le_bytes 2 (twos 2 x) ++ le_bytes 2 (twos 2 y) ++ le_bytes 2 (twos 2 z) ++
        le_bytes 2 (twos 2 r) ++ [target % 256] ++
        (aux.map (fun a => le_bytes 2 (twos 2 a))).flatten }
  mavlink_msg_param_request_list_pack := fun sysid compid target_system target_component =>
    { msgid := 21, sysid := sysid, compid := compid,
      payload := [target_system % 256, target_component % 256] }
  mavlink_msg_param_set_pack := fun sysid compid target_system target_component param_id
      param_value param_type =>
    { msgid := 23, sysid := sysid, compid := compid,
      payload := fx_bytes param_value ++ [target_system % 256, target_component % 256] ++
        param_id.take 16 ++ [param_type % 256] }
  mavlink_msg_to_send_buffer := fun msg =>
    0xFD :: (msg.payload.take 255).length :: msg.sysid % 256 :: msg.compid % 256 ::
      msg.msgid % 256 :: msg.payload.take 255
  mavlink_parse_char := parse_char
  mavlink_msg_heartbeat_decode := fun msg =>
    { custom_mode := le_value (field msg.payload 0 4),
      type := msg.payload.getD 4 0, autopilot := msg.payload.getD 5 0,
      base_mode := msg.payload.getD 6 0, system_status := msg.payload.getD 7 0 }
  mavlink_msg_attitude_decode := fun msg =>
    { roll := fx_value (field msg.payload 4 4), pitch := fx_value (field msg.payload 8 4),
      yaw := fx_value (field msg.payload 12 4),
      rollspeed := fx_value (field msg.payload 16 4),
      pitchspeed := fx_value (field msg.payload 20 4),
      yawspeed := fx_value (field msg.payload 24 4) }
  mavlink_msg_statustext_decode := fun msg =>
    { severity := msg.payload.getD 0 0, text := field msg.payload 1 50 }
  mavlink_msg_global_position_int_decode := fun msg =>
    { lat := le_signed 4 (field msg.payload 4 4), lon := le_signed 4 (field msg.payload 8 4),
      alt := le_signed 4 (field msg.payload 12 4),
      relative_alt := le_signed 4 (field msg.payload 16 4) }
  mavlink_msg_param_value_decode := fun msg =>
    { param_value := fx_value (field msg.payload 0 4), param_id := field msg.payload 8 16,
      param_type := msg.payload.getD 24 0 }

/-- The value of a run of decimal digits of an address text, when it is an octet. -/
def octet (digits : List Nat) : Option Nat :=
  if digits ≠ [] ∧ digits.length ≤ 3 ∧ digits.all (fun d => 48 ≤ d && d ≤ 57) then
    let v := digits.foldl (fun acc d => acc * 10 + (d - 48)) 0
    if v ≤ 255 then some v else none
  else none

/-- The runs of bytes between dots. -/
def split_dots : List Nat → List (List Nat)
  | [] => [[]]
  | b :: rest =>
    if b = 46 then [] :: split_dots rest
    else
      match split_dots rest with
      | run :: runs => (b :: run) :: runs
      | [] => [[b]]

/-- The address a dotted-quad text stands for, in network byte order on a little-endian
host. -/
def inet_pton (text : List Nat) : Option Nat :=
  match (split_dots text).map octet with
  | [some a, some b, some c, some d] => some (a + 256 * b + 65536 * c + 16777216 * d)
  | _ => none

/-- The decimal digits of an octet. -/
def octet_text (v : Nat) : List Nat :=
  if v < 10 then [48 + v]
  else if v < 100 then [48 + v / 10, 48 + v % 10]
  else [48 + v / 100, 48 + v / 10 % 10, 48 + v % 10]

/-- The dotted-quad text of an address, with its terminator. -/
def inet_ntop (addr : Nat) : List Nat :=
  octet_text (addr % 256) ++ [46] ++ octet_text (addr / 256 % 256) ++ [46] ++
    octet_text (addr / 65536 % 256) ++ [46] ++ octet_text (addr / 16777216 % 256) ++ [0]

/-- The platform. -/
def posix : Posix where
  AF_INET := 2
  INET_ADDRSTRLEN := 16
  EAGAIN := 11
  EWOULDBLOCK := 11
  htons := fun port => (port % 65536).toNat % 256 * 256 + (port % 65536).toNat / 256
  inet_pton := inet_pton
  inet_ntop := inet_ntop

/-- The text 192.168.4.1. -/
def drone_ip : List Nat := [49, 57, 50, 46, 49, 54, 56, 46, 52, 46, 49]

/-- A param-value frame for the identifier RATE with value 1.0 and the given declared type. -/
def param_value_frame (param_type : Nat) : mavlink_message_t :=
  { msgid := 22, sysid := 1, compid := 1,
    payload := [232, 3, 0, 0] ++ [1, 0] ++ [0, 0] ++
      [82, 65, 84, 69, 0, 0, 0, 0, 0, 0, 0, 0, 0, 0, 0, 0] ++ [param_type] }

/-- A global-position frame with raw latitude 473977420, raw longitude 85455940, altitude
488000 mm and relative altitude 1500 mm. -/
def position_frame : mavlink_message_t :=
  { msgid := 33, sysid := 1, compid := 1,
    payload := [0, 0, 0, 0] ++ le_bytes 4 473977420 ++ le_bytes 4 85455940 ++
      le_bytes 4 488000 ++ le_bytes 4 1500 ++ [0, 0, 0, 0, 0, 0, 0, 0] }

/-- A registry with every slot taken. -/
def callbacks : CF_GCSCallback_t :=
  { on_heartbeat := some 1, on_attitude := some 2, on_position := some 3,
    on_status_text := some 4, on_param_value := some 5 }

/-- A session object before initialisation. -/
def session : CF_GCSUDP_t :=
  { socket_fd := 0, server_addr := { sin_family := 0, sin_port := 0, sin_addr := 0 },
    is_connected := false }

/-- A session connected to 192.168.4.1 on descriptor 3. -/
def connected : CF_GCSUDP_t :=
  { socket_fd := 3,
    server_addr := { sin_family := 2, sin_port := 54840, sin_addr := 17082560 },
    is_connected := true }

/-- The sender 192.168.4.1, port 14550. -/
def drone_addr : sockaddr_in :=
  { sin_family := 2, sin_port := 54840, sin_addr := 17082560 }

end Demo

/-! ## Lemmas -/

theorem write_bytes_take (mem bytes : List Nat) :
    (write_bytes mem bytes).take bytes.length = bytes := by
  simp [write_bytes]

theorem handle_message_registry (c : Codec σ) (g : CF_GCSCallback_t) (msg : mavlink_message_t) :
    (handle_message c g msg).1 = g := by
  unfold handle_message
  dsimp only
  split_ifs <;> (try split) <;> rfl

theorem Demo.send_buffer_length (msg : mavlink_message_t) :
    0 < (Demo.codec.mavlink_msg_to_send_buffer msg).length ∧
      (Demo.codec.mavlink_msg_to_send_buffer msg).length ≤ Demo.codec.MAVLINK_MAX_PACKET_LEN := by
  simp only [Demo.codec, List.length_cons, List.length_take]
  omega

theorem Demo.case_labels_distinct : CaseLabelsDistinct Demo.codec := by
  intro j k h
  cases j <;> cases k <;> first | rfl | (exact absurd h (by decide))

theorem Demo.parse_inverts_heartbeat_pack : ParseInvertsHeartbeatPack Demo.codec [] := by
  unfold ParseInvertsHeartbeatPack
  decide

theorem process_calls (c : Codec σ) (st : ParserState σ) (bytes : List Nat) :
    (CF_gcs_parser_process c st bytes).2 =
      ((mavlink_parse_stream c st.channel bytes).2.map
        (fun m => (handle_message c st.g_callbacks m).2)).flatten := by
  induction bytes generalizing st with
  | nil => rfl
  | cons b rest ih =>
    simp only [CF_gcs_parser_process, mavlink_parse_stream]
    cases hp : (c.mavlink_parse_char st.channel b).2 with
    | none => simp [ih]
    | some msg => simp [ih, handle_message_registry]

theorem process_append (c : Codec σ) (st : ParserState σ) (a b : List Nat) :
    CF_gcs_parser_process c st (a ++ b) =
      ((CF_gcs_parser_process c (CF_gcs_parser_process c st a).1 b).1,
        (CF_gcs_parser_process c st a).2 ++
          (CF_gcs_parser_process c (CF_gcs_parser_process c st a).1 b).2) := by
  induction a generalizing st with
  | nil => simp [CF_gcs_parser_process]
  | cons x rest ih => simp [CF_gcs_parser_process, ih]

theorem process_bytewise_eq (c : Codec σ) (st : ParserState σ) (bytes : List Nat) :
    process_bytewise c st bytes = CF_gcs_parser_process c st bytes := by
  induction bytes generalizing st with
  | nil => rfl
  | cons b rest ih =>
    have h := process_append c st [b] rest
    simp only [List.singleton_append] at h
    rw [h]
    simp only [process_bytewise, ih]

theorem takeWhile_terminated (s rest : List Nat) (hs : ∀ b ∈ s, b ≠ 0) :
    (s ++ 0 :: rest).takeWhile (fun b => b != 0) = s := by
  induction s with
  | nil => simp
  | cons x xs ih =>
    have hx : x ≠ 0 := hs x (List.mem_cons_self x xs)
    have hxs : ∀ b ∈ xs, b ≠ 0 := fun b hb => hs b (List.mem_cons_of_mem x hb)
    simp [List.takeWhile_cons, hx, ih hxs]

theorem strlen_terminated (s rest : List Nat) (hs : ∀ b ∈ s, b ≠ 0) :
    strlen (s ++ 0 :: rest) = s.length := by
  simp [strlen, takeWhile_terminated s rest hs]

theorem memcpy_long_identifier (s rest : List Nat) (h : 16 ≤ s.length) :
    memcpy (List.replicate 16 0) (s ++ 0 :: rest) 16 = s.take 16 := by
  simp [memcpy, List.take_append_of_le_length h]

theorem strcpy_short_identifier (s rest : List Nat) (hs : ∀ b ∈ s, b ≠ 0)
    (h : s.length < 16) :
    strcpy (List.replicate 16 0) (s ++ 0 :: rest) = s ++ List.replicate (16 - s.length) 0 := by
  have hrep : List.replicate (16 - s.length) 0 =
      (0 : Nat) :: List.replicate (16 - (s.length + 1)) 0 := by
    have : 16 - s.length = (16 - (s.length + 1)) + 1 := by omega
    rw [this, List.replicate_succ]
  unfold strcpy write_bytes
  rw [takeWhile_terminated s rest hs, hrep]
  simp only [List.length_append, List.length_singleton, List.drop_replicate, List.append_assoc,
    List.singleton_append]

theorem case_labels_ne (c : Codec σ) (hd : CaseLabelsDistinct c) (j k : MsgKind) (h : j ≠ k) :
    MsgKind.id c j ≠ MsgKind.id c k :=
  fun e => h (hd j k e)

theorem process_state (c : Codec σ) (st : ParserState σ) (bytes : List Nat) :
    (CF_gcs_parser_process c st bytes).1 =
      { g_callbacks := st.g_callbacks,
        channel := bytes.foldl (fun s x => (c.mavlink_parse_char s x).1) st.channel } := by
  induction bytes generalizing st with
  | nil => rfl
  | cons b rest ih =>
    simp only [CF_gcs_parser_process, List.foldl_cons, ih]
    cases (c.mavlink_parse_char st.channel b).2 with
    | none => rfl
    | some msg => simp only [handle_message_registry]

/-! ## Theorems -/

/-- C1: every one of the eight builders returns exactly 0 and leaves the buffer as it was when
the buffer is null or `buffer_size` is below `MAVLINK_MAX_PACKET_LEN`, and returns a length
`n` with `0 < n` and `n ≤ MAVLINK_MAX_PACKET_LEN` when the buffer is non-null and
`buffer_size` is at least `MAVLINK_MAX_PACKET_LEN`, the serialised length of the codec being
assumed to lie in that range. -/
theorem builder_return_contract (c : Codec σ) (call : BuilderCall)
    (buffer : Option (List Nat)) (buffer_size : Nat)
    (hlen : ∀ msg, 0 < (c.mavlink_msg_to_send_buffer msg).length ∧
      (c.mavlink_msg_to_send_buffer msg).length ≤ c.MAVLINK_MAX_PACKET_LEN) :
    ((buffer = none ∨ buffer_size < c.MAVLINK_MAX_PACKET_LEN) →
      call.run c buffer buffer_size = (buffer, 0)) ∧
    ((buffer ≠ none ∧ c.MAVLINK_MAX_PACKET_LEN ≤ buffer_size) →
      0 < (call.run c buffer buffer_size).2 ∧
      (call.run c buffer buffer_size).2 ≤ c.MAVLINK_MAX_PACKET_LEN) := by
  constructor
  · intro h
    cases buffer with
    | none => cases call <;> rfl
    | some mem =>
      have hlt : buffer_size < c.MAVLINK_MAX_PACKET_LEN := by
        rcases h with h | h
        · exact absurd h (by simp)
        · exact h
      cases call <;>
        simp [BuilderCall.run, CF_gcs_build_heartbeat, CF_gcs_build_arm_disarm,
          CF_gcs_build_calibrate_imu, CF_gcs_build_calibrate_baro, CF_gcs_build_manual_control,
          CF_gcs_build_takeoff, CF_gcs_build_param_list, CF_gcs_build_set_param, hlt]
  · rintro ⟨hne, hge⟩
    cases buffer with
    | none => exact absurd rfl hne
    | some mem =>
      have hnlt : ¬ buffer_size < c.MAVLINK_MAX_PACKET_LEN := by omega
      cases call <;>
        simp only [BuilderCall.run, CF_gcs_build_heartbeat, CF_gcs_build_arm_disarm,
          CF_gcs_build_calibrate_imu, CF_gcs_build_calibrate_baro, CF_gcs_build_manual_control,
          CF_gcs_build_takeoff, CF_gcs_build_param_list, CF_gcs_build_set_param, hnlt,
          if_false, send_to_buffer] <;>
        exact hlen _

/-- C1, instantiated: on the small codec the manual-control builder returns 0 and leaves the
buffer as it was for a buffer size of 279, and returns a length between 1 and 280 for a buffer
size of 280. -/
theorem builder_return_contract_witness :
    (BuilderCall.manual_control 100 (-100) 0 500).run Demo.codec (some [7, 7]) 279 =
      (some [7, 7], 0) ∧
    0 < ((BuilderCall.manual_control 100 (-100) 0 500).run Demo.codec (some [7, 7]) 280).2 ∧
    ((BuilderCall.manual_control 100 (-100) 0 500).run Demo.codec (some [7, 7]) 280).2 ≤
      Demo.codec.MAVLINK_MAX_PACKET_LEN :=
  ⟨(builder_return_contract Demo.codec (BuilderCall.manual_control 100 (-100) 0 500)
      (some [7, 7]) 279 Demo.send_buffer_length).1 (Or.inr (by decide)),
   (builder_return_contract Demo.codec (BuilderCall.manual_control 100 (-100) 0 500)
      (some [7, 7]) 280 Demo.send_buffer_length).2 ⟨by simp, by decide⟩⟩

/-- C2: from a fresh decode state and a registry set by `CF_gcs_parser_init` whose heartbeat
slot is taken, feeding the `n` bytes written by `CF_gcs_build_heartbeat` (buffer size at least
`MAVLINK_MAX_PACKET_LEN`) to `CF_gcs_parser_process` invokes the heartbeat callback exactly
once and no other callback, with `is_armed = false`, `vehicle_type = MAV_TYPE_GCS`,
`autopilot = MAV_AUTOPILOT_INVALID`, `custom_mode = 0` and `system_status = MAV_STATE_ACTIVE`,
whether the bytes are fed in one call or one byte per call; the parse of the codec is assumed
to invert its pack, and the armed bit of `MAV_MODE_FLAG_CUSTOM_MODE_ENABLED` to be clear. -/
theorem heartbeat_round_trip (c : Codec σ) (s0 : σ) (g0 callbacks : CF_GCSCallback_t)
    (fn : Nat) (mem : List Nat) (buffer_size : Nat)
    (hsize : c.MAVLINK_MAX_PACKET_LEN ≤ buffer_size)
    (hcb : callbacks.on_heartbeat = some fn)
    (hcodec : ParseInvertsHeartbeatPack c s0)
    (harmed : c.MAV_MODE_FLAG_CUSTOM_MODE_ENABLED &&& c.MAV_MODE_FLAG_SAFETY_ARMED = 0) :
    (CF_gcs_parser_process c
        (CF_gcs_parser_init { g_callbacks := g0, channel := s0 } callbacks)
        (((CF_gcs_build_heartbeat c (some mem) buffer_size).1.getD []).take
          (CF_gcs_build_heartbeat c (some mem) buffer_size).2)).2 =
      [CallbackCall.on_heartbeat fn false c.MAV_TYPE_GCS c.MAV_AUTOPILOT_INVALID 0
        c.MAV_STATE_ACTIVE] ∧
    (process_bytewise c
        (CF_gcs_parser_init { g_callbacks := g0, channel := s0 } callbacks)
        (((CF_gcs_build_heartbeat c (some mem) buffer_size).1.getD []).take
          (CF_gcs_build_heartbeat c (some mem) buffer_size).2)).2 =
      [CallbackCall.on_heartbeat fn false c.MAV_TYPE_GCS c.MAV_AUTOPILOT_INVALID 0
        c.MAV_STATE_ACTIVE] := by
  have hnlt : ¬ buffer_size < c.MAVLINK_MAX_PACKET_LEN := by omega
  have hbytes : ((CF_gcs_build_heartbeat c (some mem) buffer_size).1.getD []).take
      (CF_gcs_build_heartbeat c (some mem) buffer_size).2 =
      c.mavlink_msg_to_send_buffer
        (c.mavlink_msg_heartbeat_pack GCS_SYSTEM_ID GCS_COMP_ID c.MAV_TYPE_GCS
          c.MAV_AUTOPILOT_INVALID c.MAV_MODE_FLAG_CUSTOM_MODE_ENABLED 0 c.MAV_STATE_ACTIVE) := by
    simp only [CF_gcs_build_heartbeat, hnlt, if_false, send_to_buffer, Option.getD_some]
    exact write_bytes_take _ _
  have hone : (CF_gcs_parser_process c
        (CF_gcs_parser_init { g_callbacks := g0, channel := s0 } callbacks)
        (((CF_gcs_build_heartbeat c (some mem) buffer_size).1.getD []).take
          (CF_gcs_build_heartbeat c (some mem) buffer_size).2)).2 =
      [CallbackCall.on_heartbeat fn false c.MAV_TYPE_GCS c.MAV_AUTOPILOT_INVALID 0
        c.MAV_STATE_ACTIVE] := by
    rw [hbytes, process_calls]
    unfold ParseInvertsHeartbeatPack at hcodec
    simp only [CF_gcs_parser_init]
    generalize (mavlink_parse_stream c s0 _).2 = frames at hcodec
    cases frames with
    | nil => simp at hcodec
    | cons m tl =>
      cases tl with
      | cons m2 tl2 => simp at hcodec
      | nil =>
        simp only [List.map_cons, List.map_nil, List.cons.injEq, Prod.mk.injEq, and_true]
          at hcodec
        obtain ⟨hid, hdec⟩ := hcodec
        simp [handle_message, hid, hdec, hcb, harmed]
  refine ⟨hone, ?_⟩
  rw [process_bytewise_eq]
  exact hone

/-- C2, instantiated: on the small codec, whose decoder inverts its serialiser on the
heartbeat, the heartbeat callback is the one call made, with the fields the builder packed. -/
theorem heartbeat_round_trip_witness :
    Demo.codec.MAVLINK_MAX_PACKET_LEN ≤ 280 ∧
    Demo.callbacks.on_heartbeat = some 1 ∧
    ParseInvertsHeartbeatPack Demo.codec [] ∧
    Demo.codec.MAV_MODE_FLAG_CUSTOM_MODE_ENABLED &&& Demo.codec.MAV_MODE_FLAG_SAFETY_ARMED = 0 ∧
    (CF_gcs_parser_process Demo.codec
        (CF_gcs_parser_init { g_callbacks := Demo.callbacks, channel := [] } Demo.callbacks)
        (((CF_gcs_build_heartbeat Demo.codec (some (List.replicate 280 0)) 280).1.getD []).take
          (CF_gcs_build_heartbeat Demo.codec (some (List.replicate 280 0)) 280).2)).2 =
      [CallbackCall.on_heartbeat 1 false 6 8 0 4] ∧
    (process_bytewise Demo.codec
        (CF_gcs_parser_init { g_callbacks := Demo.callbacks, channel := [] } Demo.callbacks)
        (((CF_gcs_build_heartbeat Demo.codec (some (List.replicate 280 0)) 280).1.getD []).take
          (CF_gcs_build_heartbeat Demo.codec (some (List.replicate 280 0)) 280).2)).2 =
      [CallbackCall.on_heartbeat 1 false 6 8 0 4] :=
  ⟨by decide, rfl, Demo.parse_inverts_heartbeat_pack, by decide,
   heartbeat_round_trip Demo.codec [] Demo.callbacks Demo.callbacks 1 (List.replicate 280 0) 280
     (by decide) rfl Demo.parse_inverts_heartbeat_pack (by decide)⟩

/-- C3: in `CF_gcs_build_set_param`, for a `param_id` string `s` of length `L` (its bytes, none
of them zero, followed in memory by the terminator), the identifier handed to the codec is the
first 16 bytes of `s`, with no terminator, when `L ≥ 16`, and the `L` bytes of `s` followed by
`16 - L` zero bytes when `L < 16`; it is exactly 16 bytes long in both cases, and the value is
tagged `MAV_PARAM_TYPE_REAL32`. -/
theorem set_param_identifier_field (c : Codec σ) (mem : List Nat) (buffer_size : Nat)
    (s rest : List Nat) (param_value : ℚ)
    (hsize : c.MAVLINK_MAX_PACKET_LEN ≤ buffer_size)
    (hs : ∀ b ∈ s, b ≠ 0) :
    CF_gcs_build_set_param c (some mem) buffer_size (s ++ 0 :: rest) param_value =
      send_to_buffer c mem
        (c.mavlink_msg_param_set_pack 255 25 1 1
          (if 16 ≤ s.length then s.take 16 else s ++ List.replicate (16 - s.length) 0)
          param_value c.MAV_PARAM_TYPE_REAL32) ∧
    (if 16 ≤ s.length then s.take 16
      else s ++ List.replicate (16 - s.length) 0).length = 16 ∧
    (16 ≤ s.length → (0 : Nat) ∉ s.take 16) := by
  have hnlt : ¬ buffer_size < c.MAVLINK_MAX_PACKET_LEN := by omega
  refine ⟨?_, ?_, ?_⟩
  · simp only [CF_gcs_build_set_param, hnlt, if_false, strlen_terminated s rest hs,
      GCS_SYSTEM_ID, GCS_COMP_ID, TARGET_SYSTEM_ID, TARGET_COMP_ID, ge_iff_le]
    by_cases h : 16 ≤ s.length
    · simp only [h, if_true, memcpy_long_identifier s rest h]
    · simp only [h, if_false, strcpy_short_identifier s rest hs (by omega)]
  · by_cases h : 16 ≤ s.length
    · simp only [h, if_true, List.length_take]
      omega
    · simp only [h, if_false, List.length_append, List.length_replicate]
      omega
  · intro _ hmem
    exact hs 0 (List.mem_of_mem_take hmem) rfl

/-- C3, instantiated: the 17-character identifier ABCDEFGHIJKLMNOPQ is handed over as its
first 16 characters. -/
theorem set_param_identifier_field_witness :
    Demo.codec.MAVLINK_MAX_PACKET_LEN ≤ 280 ∧
    CF_gcs_build_set_param Demo.codec (some []) 280
        ([65, 66, 67, 68, 69, 70, 71, 72, 73, 74, 75, 76, 77, 78, 79, 80, 81] ++ 0 :: [9, 9])
        (5 / 2) =
      send_to_buffer Demo.codec []
        (Demo.codec.mavlink_msg_param_set_pack 255 25 1 1
          [65, 66, 67, 68, 69, 70, 71, 72, 73, 74, 75, 76, 77, 78, 79, 80]
          (5 / 2) Demo.codec.MAV_PARAM_TYPE_REAL32) :=
  ⟨by decide,
   (set_param_identifier_field Demo.codec [] 280
      [65, 66, 67, 68, 69, 70, 71, 72, 73, 74, 75, 76, 77, 78, 79, 80, 81] [9, 9] (5 / 2)
      (by decide) (by decide)).1⟩

/-- C4: for either value of `is_armed`, the long command that `CF_gcs_build_arm_disarm` packs
and serialises has origin (255, 25), target (1, 1), command `MAV_CMD_COMPONENT_ARM_DISARM`,
confirmation 0, first parameter 1.0 when `is_armed` is true and 0.0 when it is false, and
parameters 2 to 7 equal to 0.0. -/
theorem arm_disarm_command (c : Codec σ) (mem : List Nat) (buffer_size : Nat)
    (hsize : c.MAVLINK_MAX_PACKET_LEN ≤ buffer_size) :
    CF_gcs_build_arm_disarm c (some mem) buffer_size true =
      send_to_buffer c mem
        (c.mavlink_msg_command_long_pack 255 25 1 1 c.MAV_CMD_COMPONENT_ARM_DISARM 0
          1 0 0 0 0 0 0) ∧
    CF_gcs_build_arm_disarm c (some mem) buffer_size false =
      send_to_buffer c mem
        (c.mavlink_msg_command_long_pack 255 25 1 1 c.MAV_CMD_COMPONENT_ARM_DISARM 0
          0 0 0 0 0 0 0) := by
  have hnlt : ¬ buffer_size < c.MAVLINK_MAX_PACKET_LEN := by omega
  constructor <;>
    simp [CF_gcs_build_arm_disarm, hnlt, GCS_SYSTEM_ID, GCS_COMP_ID, TARGET_SYSTEM_ID,
      TARGET_COMP_ID]

/-- C4, instantiated: on the small codec, with a buffer size of 280. -/
theorem arm_disarm_command_witness :
    Demo.codec.MAVLINK_MAX_PACKET_LEN ≤ 280 ∧
    CF_gcs_build_arm_disarm Demo.codec (some []) 280 true =
      send_to_buffer Demo.codec []
        (Demo.codec.mavlink_msg_command_long_pack 255 25 1 1 400 0 1 0 0 0 0 0 0) ∧
    CF_gcs_build_arm_disarm Demo.codec (some []) 280 false =
      send_to_buffer Demo.codec []
        (Demo.codec.mavlink_msg_command_long_pack 255 25 1 1 400 0 0 0 0 0 0 0 0) :=
  ⟨by decide, arm_disarm_command Demo.codec [] 280 (by decide)⟩

/-- C5, as stated, fails: with every slot taken, a param-value frame whose declared type is 6
(a 32-bit integer) and not `MAV_PARAM_TYPE_REAL32` invokes no callback, where the
unconditional contract wants the param-value callback invoked once. -/
theorem dispatch_every_kind_fails :
    ¬ DispatchesEveryKind Demo.codec Demo.callbacks (Demo.param_value_frame 6) := by
  intro h
  obtain ⟨call, hcall, _, _⟩ := (h.1 MsgKind.ParamValue rfl).1 5 rfl
  have hnone : (handle_message Demo.codec Demo.callbacks (Demo.param_value_frame 6)).2 = [] := by
    decide
  rw [hnone] at hcall
  exact List.noConfusion hcall

/-- C5, amended: `handle_message` leaves the registry as it was and selects its handler by the
message kind of the frame. A frame of kind Heartbeat, Attitude, StatusText or GlobalPosition,
and a frame of kind ParamValue whose declared type is `MAV_PARAM_TYPE_REAL32`, invokes the
callback registered in the slot of its kind exactly once and nothing else, and nothing at all
when that slot is empty; a ParamValue frame of another declared type, and a frame of any other
kind, invokes no callback. -/
theorem handle_message_dispatch (c : Codec σ) (g : CF_GCSCallback_t) (msg : mavlink_message_t)
    (hd : CaseLabelsDistinct c) :
    (handle_message c g msg).1 = g ∧
    (∀ k : MsgKind, msg.msgid = MsgKind.id c k →
      ((k = MsgKind.ParamValue ∧
          (c.mavlink_msg_param_value_decode msg).param_type ≠ c.MAV_PARAM_TYPE_REAL32) →
        (handle_message c g msg).2 = []) ∧
      (¬ (k = MsgKind.ParamValue ∧
          (c.mavlink_msg_param_value_decode msg).param_type ≠ c.MAV_PARAM_TYPE_REAL32) →
        (∀ fn, g.slot k = some fn →
          ∃ call, (handle_message c g msg).2 = [call] ∧ call.kind = k ∧ call.fn = fn) ∧
        (g.slot k = none → (handle_message c g msg).2 = []))) ∧
    ((∀ k : MsgKind, msg.msgid ≠ MsgKind.id c k) → (handle_message c g msg).2 = []) := by
  have n1 := case_labels_ne c hd .Heartbeat .Attitude (by decide)
  have n2 := case_labels_ne c hd .Heartbeat .StatusText (by decide)
  have n3 := case_labels_ne c hd .Heartbeat .GlobalPosition (by decide)
  have n4 := case_labels_ne c hd .Heartbeat .ParamValue (by decide)
  have n5 := case_labels_ne c hd .Attitude .StatusText (by decide)
  have n6 := case_labels_ne c hd .Attitude .GlobalPosition (by decide)
  have n7 := case_labels_ne c hd .Attitude .ParamValue (by decide)
  have n8 := case_labels_ne c hd .StatusText .GlobalPosition (by decide)
  have n9 := case_labels_ne c hd .StatusText .ParamValue (by decide)
  have n10 := case_labels_ne c hd .GlobalPosition .ParamValue (by decide)
  simp only [MsgKind.id] at n1 n2 n3 n4 n5 n6 n7 n8 n9 n10
  refine ⟨handle_message_registry c g msg, ?_, ?_⟩
  · intro k hk
    cases k <;> simp only [MsgKind.id] at hk
    · refine ⟨fun h => absurd h.1 (by decide), fun _ => ⟨fun fn hfn => ?_, fun hnone => ?_⟩⟩
      · simp only [CF_GCSCallback_t.slot] at hfn
        simp only [handle_message, hk, if_true, hfn]
        exact ⟨_, rfl, rfl, rfl⟩
      · simp only [CF_GCSCallback_t.slot] at hnone
        simp only [handle_message, hk, if_true, hnone]
    · refine ⟨fun h => absurd h.1 (by decide), fun _ => ⟨fun fn hfn => ?_, fun hnone => ?_⟩⟩
      · simp only [CF_GCSCallback_t.slot] at hfn
        simp only [handle_message, hk, n1.symm, if_false, if_true, hfn]
        exact ⟨_, rfl, rfl, rfl⟩
      · simp only [CF_GCSCallback_t.slot] at hnone
        simp only [handle_message, hk, n1.symm, if_false, if_true, hnone]
    · refine ⟨fun h => absurd h.1 (by decide), fun _ => ⟨fun fn hfn => ?_, fun hnone => ?_⟩⟩
      · simp only [CF_GCSCallback_t.slot] at hfn
        simp only [handle_message, hk, n2.symm, n5.symm, if_false, if_true, hfn]
        exact ⟨_, rfl, rfl, rfl⟩
      · simp only [CF_GCSCallback_t.slot] at hnone
        simp only [handle_message, hk, n2.symm, n5.symm, if_false, if_true, hnone]
    · refine ⟨fun h => absurd h.1 (by decide), fun _ => ⟨fun fn hfn => ?_, fun hnone => ?_⟩⟩
      · simp only [CF_GCSCallback_t.slot] at hfn
        simp only [handle_message, hk, n3.symm, n6.symm, n8.symm, if_false, if_true, hfn]
        exact ⟨_, rfl, rfl, rfl⟩
      · simp only [CF_GCSCallback_t.slot] at hnone
        simp only [handle_message, hk, n3.symm, n6.symm, n8.symm, if_false, if_true, hnone]
    · refine ⟨fun h => ?_, fun h => ⟨fun fn hfn => ?_, fun hnone => ?_⟩⟩
      · simp only [handle_message, hk, n4.symm, n7.symm, n9.symm, n10.symm, if_false, if_true,
          h.2, ne_eq, not_false_eq_true]
      · have ht : (c.mavlink_msg_param_value_decode msg).param_type =
            c.MAV_PARAM_TYPE_REAL32 := by
          by_contra hne
          exact h ⟨rfl, hne⟩
        simp only [CF_GCSCallback_t.slot] at hfn
        simp only [handle_message, hk, n4.symm, n7.symm, n9.symm, n10.symm, if_false, if_true,
          ht, ne_eq, not_true_eq_false, hfn]
        exact ⟨_, rfl, rfl, rfl⟩
      · have ht : (c.mavlink_msg_param_value_decode msg).param_type =
            c.MAV_PARAM_TYPE_REAL32 := by
          by_contra hne
          exact h ⟨rfl, hne⟩
        simp only [CF_GCSCallback_t.slot] at hnone
        simp only [handle_message, hk, n4.symm, n7.symm, n9.symm, n10.symm, if_false, if_true,
          ht, ne_eq, not_true_eq_false, hnone]
  · intro hk
    have h1 := hk .Heartbeat
    have h2 := hk .Attitude
    have h3 := hk .StatusText
    have h4 := hk .GlobalPosition
    have h5 := hk .ParamValue
    simp only [MsgKind.id, ne_eq] at h1 h2 h3 h4 h5
    simp only [handle_message, h1, h2, h3, h4, h5, if_false]

/-- C5, amended and instantiated: on the small codec a param-value frame of declared type 9
invokes the param-value callback once, and one of declared type 6 invokes nothing. -/
theorem handle_message_dispatch_witness :
    CaseLabelsDistinct Demo.codec ∧
    (∃ call, (handle_message Demo.codec Demo.callbacks (Demo.param_value_frame 9)).2 = [call] ∧
      call.kind = MsgKind.ParamValue ∧ call.fn = 5) ∧
    (handle_message Demo.codec Demo.callbacks (Demo.param_value_frame 6)).2 = [] :=
  ⟨Demo.case_labels_distinct,
   (((handle_message_dispatch Demo.codec Demo.callbacks (Demo.param_value_frame 9)
      Demo.case_labels_distinct).2.1 MsgKind.ParamValue rfl).2
        (fun h => h.2 (by decide))).1 5 rfl,
   ((handle_message_dispatch Demo.codec Demo.callbacks (Demo.param_value_frame 6)
      Demo.case_labels_distinct).2.1 MsgKind.ParamValue rfl).1 ⟨rfl, by decide⟩⟩

/-- C6: for a decoded ParamValue frame with a param-value callback registered, the callback is
invoked, once and alone, when the declared type of the frame is `MAV_PARAM_TYPE_REAL32`, and it
then receives the `param_id` and the `param_value` of the frame unchanged; for any other
declared type no callback of any kind is invoked. -/
theorem param_value_forwarding (c : Codec σ) (g : CF_GCSCallback_t) (msg : mavlink_message_t)
    (fn : Nat) (hd : CaseLabelsDistinct c)
    (hid : msg.msgid = c.MAVLINK_MSG_ID_PARAM_VALUE)
    (hslot : g.on_param_value = some fn) :
    ((c.mavlink_msg_param_value_decode msg).param_type = c.MAV_PARAM_TYPE_REAL32 →
      (handle_message c g msg).2 =
        [CallbackCall.on_param_value fn (c.mavlink_msg_param_value_decode msg).param_id
          (c.mavlink_msg_param_value_decode msg).param_value]) ∧
    ((c.mavlink_msg_param_value_decode msg).param_type ≠ c.MAV_PARAM_TYPE_REAL32 →
      (handle_message c g msg).2 = []) := by
  have n4 := case_labels_ne c hd .Heartbeat .ParamValue (by decide)
  have n7 := case_labels_ne c hd .Attitude .ParamValue (by decide)
  have n9 := case_labels_ne c hd .StatusText .ParamValue (by decide)
  have n10 := case_labels_ne c hd .GlobalPosition .ParamValue (by decide)
  simp only [MsgKind.id] at n4 n7 n9 n10
  constructor
  · intro ht
    simp only [handle_message, hid, n4.symm, n7.symm, n9.symm, n10.symm, if_false, if_true,
      ht, ne_eq, not_true_eq_false, hslot]
  · intro ht
    simp only [handle_message, hid, n4.symm, n7.symm, n9.symm, n10.symm, if_false, if_true,
      ht, ne_eq, not_false_eq_true]

/-- C6, instantiated: on the small codec the frame for RATE = 1.0 of declared type 9 reaches
the callback with that identifier and that value. -/
theorem param_value_forwarding_witness :
    CaseLabelsDistinct Demo.codec ∧
    (Demo.param_value_frame 9).msgid = Demo.codec.MAVLINK_MSG_ID_PARAM_VALUE ∧
    Demo.callbacks.on_param_value = some 5 ∧
    (Demo.codec.mavlink_msg_param_value_decode (Demo.param_value_frame 9)).param_type =
      Demo.codec.MAV_PARAM_TYPE_REAL32 ∧
    (handle_message Demo.codec Demo.callbacks (Demo.param_value_frame 9)).2 =
      [CallbackCall.on_param_value 5
        (Demo.codec.mavlink_msg_param_value_decode (Demo.param_value_frame 9)).param_id
        (Demo.codec.mavlink_msg_param_value_decode (Demo.param_value_frame 9)).param_value] :=
  ⟨Demo.case_labels_distinct, rfl, rfl, by decide,
   (param_value_forwarding Demo.codec Demo.callbacks (Demo.param_value_frame 9) 5
      Demo.case_labels_distinct rfl rfl).1 (by decide)⟩

/-- C7: for a decoded GlobalPosition frame with fields `lat`, `lon`, `alt`, `relative_alt` and
a position callback registered, the callback receives `lat / 10^7`, `lon / 10^7`, `alt / 1000`
and `relative_alt / 1000`, as exact rationals; in particular `lat = 473977420` gives 47.397742
and `relative_alt = 1500` gives 1.5. -/
theorem position_unit_conversion (c : Codec σ) (g : CF_GCSCallback_t)
    (msg : mavlink_message_t) (fn : Nat) (hd : CaseLabelsDistinct c)
    (hid : msg.msgid = c.MAVLINK_MSG_ID_GLOBAL_POSITION_INT)
    (hslot : g.on_position = some fn) :
    (handle_message c g msg).2 =
      [CallbackCall.on_position fn
        (((c.mavlink_msg_global_position_int_decode msg).lat : ℚ) / 10 ^ 7)
        (((c.mavlink_msg_global_position_int_decode msg).lon : ℚ) / 10 ^ 7)
        (((c.mavlink_msg_global_position_int_decode msg).alt : ℚ) / 1000)
        (((c.mavlink_msg_global_position_int_decode msg).relative_alt : ℚ) / 1000)] ∧
    ((c.mavlink_msg_global_position_int_decode msg).lat = 473977420 →
      (c.mavlink_msg_global_position_int_decode msg).relative_alt = 1500 →
      (handle_message c g msg).2 =
        [CallbackCall.on_position fn 47.397742
          (((c.mavlink_msg_global_position_int_decode msg).lon : ℚ) / 10 ^ 7)
          (((c.mavlink_msg_global_position_int_decode msg).alt : ℚ) / 1000)
          1.5]) := by
  have n3 := case_labels_ne c hd .Heartbeat .GlobalPosition (by decide)
  have n6 := case_labels_ne c hd .Attitude .GlobalPosition (by decide)
  have n8 := case_labels_ne c hd .StatusText .GlobalPosition (by decide)
  simp only [MsgKind.id] at n3 n6 n8
  have hcall : (handle_message c g msg).2 =
      [CallbackCall.on_position fn
        (((c.mavlink_msg_global_position_int_decode msg).lat : ℚ) / 10 ^ 7)
        (((c.mavlink_msg_global_position_int_decode msg).lon : ℚ) / 10 ^ 7)
        (((c.mavlink_msg_global_position_int_decode msg).alt : ℚ) / 1000)
        (((c.mavlink_msg_global_position_int_decode msg).relative_alt : ℚ) / 1000)] := by
    simp only [handle_message, hid, n3.symm, n6.symm, n8.symm, if_false, if_true, hslot]
    norm_num
  refine ⟨hcall, fun hlat hrel => ?_⟩
  rw [hcall, hlat, hrel]
  norm_num

/-- C7, instantiated: on the small codec the frame with raw latitude 473977420 and relative
altitude 1500 mm reaches the callback as 47.397742 degrees and 1.5 m. -/
theorem position_unit_conversion_witness :
    CaseLabelsDistinct Demo.codec ∧
    Demo.position_frame.msgid = Demo.codec.MAVLINK_MSG_ID_GLOBAL_POSITION_INT ∧
    Demo.callbacks.on_position = some 3 ∧
    (Demo.codec.mavlink_msg_global_position_int_decode Demo.position_frame).lat = 473977420 ∧
    (Demo.codec.mavlink_msg_global_position_int_decode Demo.position_frame).relative_alt =
      1500 ∧
    (handle_message Demo.codec Demo.callbacks Demo.position_frame).2 =
      [CallbackCall.on_position 3 47.397742
        (((Demo.codec.mavlink_msg_global_position_int_decode Demo.position_frame).lon : ℚ) /
          10 ^ 7)
        (((Demo.codec.mavlink_msg_global_position_int_decode Demo.position_frame).alt : ℚ) /
          1000)
        1.5] :=
  ⟨Demo.case_labels_distinct, rfl, rfl, by decide, by decide,
   (position_unit_conversion Demo.codec Demo.callbacks Demo.position_frame 3
      Demo.case_labels_distinct rfl rfl).2 (by decide) (by decide)⟩

/-- C8: for a connected session, a non-null buffer and a non-zero capacity, the value
`CF_gcs_udp_receive` returns is fixed by what its one `recvfrom` call meets. A datagram of
`n > 0` bytes (`n` below 2^31, as every UDP datagram is) from the recorded remote address
returns `n`; a datagram from any other address returns 0, which is not its byte count when it
has one; an error with `errno` equal to `EAGAIN` or `EWOULDBLOCK` returns 0; any other error
returns -1. The session is the same after the call in every case. -/
theorem udp_receive_result (px : Posix) (cl : CF_GCSUDP_t) (mem : List Nat)
    (buffer_size : Nat) (r : RecvOutcome)
    (hconn : cl.is_connected = true) (hsize : buffer_size ≠ 0) :
    (CF_gcs_udp_receive px (some cl) (some mem) buffer_size r).1 = some cl ∧
    (∀ data sender, r = RecvOutcome.datagram data sender →
      (sender.sin_addr = cl.server_addr.sin_addr → 0 < (data.take buffer_size).length →
        (data.take buffer_size).length < 2 ^ 31 →
        (CF_gcs_udp_receive px (some cl) (some mem) buffer_size r).2.2 =
          ((data.take buffer_size).length : Int)) ∧
      (sender.sin_addr ≠ cl.server_addr.sin_addr →
        (CF_gcs_udp_receive px (some cl) (some mem) buffer_size r).2.2 = 0 ∧
        (0 < (data.take buffer_size).length →
          (CF_gcs_udp_receive px (some cl) (some mem) buffer_size r).2.2 ≠
            ((data.take buffer_size).length : Int)))) ∧
    (∀ errno, r = RecvOutcome.error errno →
      ((errno = px.EAGAIN ∨ errno = px.EWOULDBLOCK) →
        (CF_gcs_udp_receive px (some cl) (some mem) buffer_size r).2.2 = 0) ∧
      (errno ≠ px.EAGAIN → errno ≠ px.EWOULDBLOCK →
        (CF_gcs_udp_receive px (some cl) (some mem) buffer_size r).2.2 = -1)) := by
  have hguard : (!cl.is_connected || buffer_size == 0) = false := by
    simp [hconn, hsize]
  refine ⟨?_, ?_, ?_⟩
  · simp only [CF_gcs_udp_receive, hguard]
    split_ifs <;> rfl
  · intro data sender hr
    subst hr
    refine ⟨fun hsame hpos hlt => ?_, fun hdiff => ?_⟩
    · have hpos2 : (0 : Int) < ((data.take buffer_size).length : Int) := by exact_mod_cast hpos
      simp only [CF_gcs_udp_receive, hguard, recvfrom, gt_iff_lt, hpos2, if_true, hsame,
        ne_eq, not_true_eq_false, if_false, int_of_ssize, Bool.false_eq_true]
      omega
    · by_cases hpos : (0 : Int) < ((data.take buffer_size).length : Int)
      · simp only [CF_gcs_udp_receive, hguard, recvfrom, gt_iff_lt, hpos, if_true, hdiff,
          ne_eq, not_false_eq_true, Bool.false_eq_true, if_false, true_and]
        intro _
        omega
      · have hzero : ((data.take buffer_size).length : Int) = 0 := by omega
        simp only [CF_gcs_udp_receive, hguard, recvfrom, gt_iff_lt, hzero, lt_self_iff_false,
          if_true, if_false, Bool.false_eq_true, true_and]
        intro h
        exact absurd h (by
          have : ¬ 0 < (data.take buffer_size).length := by
            intro h2
            exact hpos (by exact_mod_cast h2)
          exact this)
  · intro errno hr
    subst hr
    refine ⟨fun hwb => ?_, fun h1 h2 => ?_⟩
    · simp [CF_gcs_udp_receive, hguard, recvfrom, hwb]
    · simp [CF_gcs_udp_receive, hguard, recvfrom, h1, h2]

/-- C8, instantiated: a three-byte datagram from the recorded address returns 3. -/
theorem udp_receive_result_witness :
    Demo.connected.is_connected = true ∧ (16 : Nat) ≠ 0 ∧
    (CF_gcs_udp_receive Demo.posix (some Demo.connected) (some (List.replicate 16 0)) 16
      (RecvOutcome.datagram [253, 9, 0] Demo.drone_addr)).2.2 = 3 :=
  ⟨rfl, by decide,
   ((udp_receive_result Demo.posix Demo.connected (List.replicate 16 0) 16
      (RecvOutcome.datagram [253, 9, 0] Demo.drone_addr) rfl (by decide)).2.1
        [253, 9, 0] Demo.drone_addr rfl).1 rfl (by decide) (by decide)⟩

/-- The paths of `CF_gcs_udp_discover_drone`. It returns false when `socket` or `bind` fails,
when `recvfrom` fails (an expired timeout is such a failure), and when the datagram received
does not start with 0xFE or 0xFD. When a datagram of at least one byte starting with 0xFE or
0xFD is received it returns true; `ip_out` then holds the text of the sender address followed
by what it held beyond it if the text fits in `(socklen_t)ip_size` bytes, and is as before if
it does not. Whenever the temporary socket was opened it is closed when the function returns,
the other descriptors being open or closed as before. -/
theorem discover_paths (px : Posix) (k : Kernel) (env : DiscoverEnv) (port timeout_ms : Int)
    (ip_out : Option (List Nat)) (ip_size : Nat) :
    (env.socket_ret < 0 →
      (CF_gcs_udp_discover_drone px k env port timeout_ms ip_out ip_size).2.2 = false) ∧
    (env.bind_ret < 0 →
      (CF_gcs_udp_discover_drone px k env port timeout_ms ip_out ip_size).2.2 = false) ∧
    (∀ errno, env.recv = RecvOutcome.error errno →
      (CF_gcs_udp_discover_drone px k env port timeout_ms ip_out ip_size).2.2 = false) ∧
    (∀ data sender, env.recv = RecvOutcome.datagram data sender →
      data.head? ≠ some 0xFE → data.head? ≠ some 0xFD →
      (CF_gcs_udp_discover_drone px k env port timeout_ms ip_out ip_size).2.2 = false) ∧
    (∀ out b rest sender, ip_out = some out → px.INET_ADDRSTRLEN ≤ ip_size →
      0 ≤ env.socket_ret → 0 ≤ env.bind_ret →
      env.recv = RecvOutcome.datagram (b :: rest) sender → (b = 0xFE ∨ b = 0xFD) →
      (CF_gcs_udp_discover_drone px k env port timeout_ms ip_out ip_size).2.2 = true ∧
      ((px.inet_ntop sender.sin_addr).length ≤ ip_size % 4294967296 →
        (CF_gcs_udp_discover_drone px k env port timeout_ms ip_out ip_size).2.1 =
          some (px.inet_ntop sender.sin_addr ++
            out.drop (px.inet_ntop sender.sin_addr).length)) ∧
      (ip_size % 4294967296 < (px.inet_ntop sender.sin_addr).length →
        (CF_gcs_udp_discover_drone px k env port timeout_ms ip_out ip_size).2.1 =
          some out)) ∧
    (ip_out ≠ none → px.INET_ADDRSTRLEN ≤ ip_size → 0 ≤ env.socket_ret →
      env.socket_ret ∉
        (CF_gcs_udp_discover_drone px k env port timeout_ms ip_out ip_size).1.open_fds) ∧
    (∀ fd, fd ≠ env.socket_ret →
      (fd ∈ (CF_gcs_udp_discover_drone px k env port timeout_ms ip_out ip_size).1.open_fds ↔
        fd ∈ k.open_fds)) := by
  refine ⟨?_, ?_, ?_, ?_, ?_, ?_, ?_⟩
  · intro h
    unfold CF_gcs_udp_discover_drone
    cases ip_out with
    | none => rfl
    | some out =>
      dsimp only
      split_ifs <;> rfl
  · intro h
    unfold CF_gcs_udp_discover_drone
    cases ip_out with
    | none => rfl
    | some out =>
      dsimp only
      split_ifs <;> rfl
  · intro errno hr
    unfold CF_gcs_udp_discover_drone
    cases ip_out with
    | none => rfl
    | some out =>
      simp only [hr, recvfrom]
      split_ifs with h1 h2 h3 h4 <;> first | rfl | (exact absurd h4.1 (by decide))
  · intro data sender hr hfe hfd
    unfold CF_gcs_udp_discover_drone
    cases ip_out with
    | none => rfl
    | some out =>
      simp only [hr, recvfrom]
      split_ifs with h1 h2 h3 h4
      · rfl
      · rfl
      · rfl
      · exfalso
        cases data with
        | nil => simp at h4
        | cons b rest =>
          cases htake : (b :: rest).take 1024 with
          | nil => simp at htake
          | cons b2 rest2 =>
            have hb : b2 = b := by
              simp [List.take_succ_cons] at htake
              exact htake.1.symm
            rw [htake] at h4
            simp only [List.getD_cons_zero, hb] at h4
            rcases h4.2 with h | h
            · exact hfe (by simp [h])
            · exact hfd (by simp [h])
      · rfl
  · intro out b rest sender hout hsize hsock hbind hr hmark
    subst hout
    have h1 : ¬ ip_size < px.INET_ADDRSTRLEN := by omega
    have h2 : ¬ env.socket_ret < 0 := by omega
    have h3 : ¬ env.bind_ret < 0 := by omega
    have hpos : (0 : Int) < (((b :: rest).take 1024).length : Int) := by
      simp [List.take_succ_cons]
      omega
    have hhead : ((b :: rest).take 1024).getD 0 0 = b := by
      simp [List.take_succ_cons]
    refine ⟨?_, fun hfit => ?_, fun hshort => ?_⟩
    · simp only [CF_gcs_udp_discover_drone, h1, h2, h3, if_false, hr, recvfrom, gt_iff_lt,
        hpos, hhead, hmark, and_self, if_true]
    · simp only [CF_gcs_udp_discover_drone, h1, h2, h3, if_false, hr, recvfrom, gt_iff_lt,
        hpos, hhead, hmark, and_self, if_true, inet_ntop_call, socklen_of_size, hfit,
        write_bytes]
    · have hnfit : ¬ (px.inet_ntop sender.sin_addr).length ≤ ip_size % 4294967296 := by omega
      simp only [CF_gcs_udp_discover_drone, h1, h2, h3, if_false, hr, recvfrom, gt_iff_lt,
        hpos, hhead, hmark, and_self, if_true, inet_ntop_call, socklen_of_size, hnfit]
  · intro hne hsize hsock
    cases ip_out with
    | none => exact absurd rfl hne
    | some out =>
      have h1 : ¬ ip_size < px.INET_ADDRSTRLEN := by omega
      have h2 : ¬ env.socket_ret < 0 := by omega
      simp only [CF_gcs_udp_discover_drone, h1, h2, if_false]
      split_ifs <;> simp [sys_close]
  · intro fd hfd
    unfold CF_gcs_udp_discover_drone
    cases ip_out with
    | none => exact Iff.rfl
    | some out =>
      dsimp only
      split_ifs <;> simp [sys_close, sys_socket, hfd] <;> split_ifs <;> simp [hfd]

/-- C9, the defect: on the small platform, with descriptor 7 open beforehand and a datagram
starting with 0xFD received from 192.168.4.1, discovery called with `ip_size = 2^32` returns
true and leaves the sixteen bytes of `ip_out` as they were: the guard on `INET_ADDRSTRLEN`
passes, `(socklen_t)ip_size` is 0, `inet_ntop` fails and its result is not looked at. With
`ip_size = 16` the same call returns true with the text 192.168.4.1 in `ip_out`. The
temporary descriptor 8 is closed in both cases. -/
theorem discover_true_without_address :
    CF_gcs_udp_discover_drone Demo.posix { open_fds := [7] }
        { socket_ret := 8, bind_ret := 0,
          recv := RecvOutcome.datagram [253, 9, 0] Demo.drone_addr }
        14550 2000 (some [0, 0, 0, 0, 0, 0, 0, 0, 0, 0, 0, 0, 0, 0, 0, 0]) 4294967296 =
      ({ open_fds := [7] }, some [0, 0, 0, 0, 0, 0, 0, 0, 0, 0, 0, 0, 0, 0, 0, 0], true) ∧
    CF_gcs_udp_discover_drone Demo.posix { open_fds := [7] }
        { socket_ret := 8, bind_ret := 0,
          recv := RecvOutcome.datagram [253, 9, 0] Demo.drone_addr }
        14550 2000 (some [0, 0, 0, 0, 0, 0, 0, 0, 0, 0, 0, 0, 0, 0, 0, 0]) 16 =
      ({ open_fds := [7] },
        some [49, 57, 50, 46, 49, 54, 56, 46, 52, 46, 49, 0, 0, 0, 0, 0], true) := by
  constructor <;> decide

/-- C10, the defect: after `CF_gcs_udp_init`, a successful connect that opened descriptor 3
followed by a second connect that opens descriptor 4 leaves descriptor 3 open and no longer
stored. When the second connect succeeds two descriptors are open at once; when its `bind`
fails descriptor 4 is closed, `socket_fd` names the closed descriptor 4, the session still
counts as connected and the open descriptor 3 is not the one stored. The session does not own
exactly one socket descriptor in either state. -/
theorem reconnect_leaks_descriptor :
    (World.run Demo.posix (World.init Demo.session)
        [UdpCall.connect Demo.drone_ip 14550 { socket_ret := 3, fcntl_ret := 0, bind_ret := 0 },
         UdpCall.connect Demo.drone_ip 14550
           { socket_ret := 4, fcntl_ret := 0, bind_ret := 0 }]).kernel.open_fds = [4, 3] ∧
    ¬ (World.run Demo.posix (World.init Demo.session)
        [UdpCall.connect Demo.drone_ip 14550 { socket_ret := 3, fcntl_ret := 0, bind_ret := 0 },
         UdpCall.connect Demo.drone_ip 14550
           { socket_ret := 4, fcntl_ret := 0, bind_ret := 0 }]).OneSocket ∧
    World.run Demo.posix (World.init Demo.session)
        [UdpCall.connect Demo.drone_ip 14550 { socket_ret := 3, fcntl_ret := 0, bind_ret := 0 },
         UdpCall.connect Demo.drone_ip 14550
           { socket_ret := 4, fcntl_ret := 0, bind_ret := -1 }] =
      { kernel := { open_fds := [3] },
        client := { socket_fd := 4,
                    server_addr := { sin_family := 2, sin_port := 54840, sin_addr := 17082560 },
                    is_connected := true } } ∧
    ¬ (World.run Demo.posix (World.init Demo.session)
        [UdpCall.connect Demo.drone_ip 14550 { socket_ret := 3, fcntl_ret := 0, bind_ret := 0 },
         UdpCall.connect Demo.drone_ip 14550
           { socket_ret := 4, fcntl_ret := 0, bind_ret := -1 }]).OneSocket := by
  refine ⟨by decide, ?_, by decide, ?_⟩
  · unfold World.OneSocket
    decide
  · unfold World.OneSocket
    decide

/-- C11: chunk independence of `CF_gcs_parser_process`. For every parser state (decode state
and registry) and all byte sequences `a` and `b`, one call on `a ++ b` invokes the same
callbacks with the same arguments in the same order, and ends in the same state, as a call on
`a` followed by a call on `b`. A call is total (it has no failure result), leaves the registry
as it was, and leaves the decode state that feeding every byte, in order and once, to the
per-byte decoder of the codec gives; the callbacks it invokes are those of the frames that
decoder reconstructs, in order. -/
theorem process_chunk_independence (c : Codec σ) (st : ParserState σ) (a b : List Nat) :
    (CF_gcs_parser_process c st (a ++ b)).2 =
      (CF_gcs_parser_process c st a).2 ++
        (CF_gcs_parser_process c (CF_gcs_parser_process c st a).1 b).2 ∧
    (CF_gcs_parser_process c st (a ++ b)).1 =
      (CF_gcs_parser_process c (CF_gcs_parser_process c st a).1 b).1 ∧
    (CF_gcs_parser_process c st a).1.g_callbacks = st.g_callbacks ∧
    (CF_gcs_parser_process c st a).1.channel =
      a.foldl (fun s x => (c.mavlink_parse_char s x).1) st.channel ∧
    (CF_gcs_parser_process c st a).2 =
      ((mavlink_parse_stream c st.channel a).2.map
        (fun m => (handle_message c st.g_callbacks m).2)).flatten := by
  refine ⟨?_, ?_, ?_, ?_, process_calls c st a⟩
  · rw [process_append]
  · rw [process_append]
  · rw [process_state]
  · rw [process_state]

/-- C11, instantiated: on the small codec a heartbeat frame cut after its ninth byte gives no
callback for the first chunk and the one heartbeat callback for the second, as the whole frame
does in one call. -/
theorem process_chunk_independence_witness :
    (CF_gcs_parser_process Demo.codec { g_callbacks := Demo.callbacks, channel := [] }
        [253, 9, 255, 25, 0, 0, 0, 0, 0]).2 = [] ∧
    (CF_gcs_parser_process Demo.codec { g_callbacks := Demo.callbacks, channel := [] }
        ([253, 9, 255, 25, 0, 0, 0, 0, 0] ++ [6, 8, 1, 4, 3])).2 =
      [CallbackCall.on_heartbeat 1 false 6 8 0 4] ∧
    (CF_gcs_parser_process Demo.codec { g_callbacks := Demo.callbacks, channel := [] }
        ([253, 9, 255, 25, 0, 0, 0, 0, 0] ++ [6, 8, 1, 4, 3])).2 =
      (CF_gcs_parser_process Demo.codec { g_callbacks := Demo.callbacks, channel := [] }
          [253, 9, 255, 25, 0, 0, 0, 0, 0]).2 ++
        (CF_gcs_parser_process Demo.codec
          (CF_gcs_parser_process Demo.codec { g_callbacks := Demo.callbacks, channel := [] }
            [253, 9, 255, 25, 0, 0, 0, 0, 0]).1 [6, 8, 1, 4, 3]).2 :=
  ⟨by decide, by decide,
   (process_chunk_independence Demo.codec { g_callbacks := Demo.callbacks, channel := [] }
      [253, 9, 255, 25, 0, 0, 0, 0, 0] [6, 8, 1, 4, 3]).1⟩

end CFGroundControl
